import Mathlib

/-!
Verification of the Open Food Facts integration module of the food-tracker
repository.

The module's pure logic is shallowly embedded below:

* JavaScript numbers are modelled as rationals (`ℚ`); `Math.round` is
  `jsRound` (round half toward positive infinity, which is JavaScript's
  behaviour); timestamps (`Date.now()` values, milliseconds) are integers.
* The rate limiter (`checkRateLimit`, `recordRequest`, `getWaitTime`) works
  on an explicit `RateLimitBucket` value instead of mutating module state.
* `fetchWithRetry`'s loop is modelled as a fuel-indexed recursion
  (`fetchAttemptLoop`); the outcome of each `fetch`, the time it takes and
  the jittered backoff durations are supplied by an environment oracle
  (`RetryEnv`), since they are nondeterministic at this level.  The model
  additionally returns the list of intermediate rate-limiter states so that
  window-occupancy can be asserted at every point of the execution.
* The data-transformation functions (`getProductName`, `getBrand`,
  `parseServingQuantity`, `getCalories`, `getNutrient`,
  `calculatePerServing`, `transformProduct`, `hasValidNutrition`,
  `recalculateServing`) are direct translations; JavaScript truthiness of
  optional strings/numbers (`undefined`, `""`, `0` are falsy) is made
  explicit through the `jsOr*` helpers.
-/

namespace FoodTracker

/-- JavaScript's `Math.round`: round half toward positive infinity. -/
def jsRound (x : ℚ) : ℤ := ⌊x + 1/2⌋

/-- `Math.round(x * 10) / 10` — round to one decimal place. -/
def round1 (x : ℚ) : ℚ := (jsRound (x * 10) : ℚ) / 10

/-- The literal `4.184` used for kJ → kcal conversion. -/
def kJperKcal : ℚ := 4184 / 1000

-- =========================================================================
-- Rate limiter (source: checkRateLimit / recordRequest / getWaitTime)
-- =========================================================================

/-- `RateLimitBucket`: list of request timestamps plus configuration. -/
structure RateLimitBucket where
  requests : List ℤ
  maxRequests : ℕ
  windowMs : ℕ
deriving DecidableEq

/-- `now - time < bucket.windowMs`: the filter predicate of `checkRateLimit`. -/
def inWindow (now : ℤ) (windowMs : ℕ) (t : ℤ) : Bool :=
  now - t < (windowMs : ℤ)

/-- `checkRateLimit`: drop timestamps outside the window (the source mutates
`bucket.requests`; here the pruned bucket is returned) and report whether the
remaining count is below the maximum. -/
def checkRateLimit (now : ℤ) (bucket : RateLimitBucket) :
    RateLimitBucket × Bool :=
  let pruned := bucket.requests.filter (inWindow now bucket.windowMs)
  ({ bucket with requests := pruned },
   decide (pruned.length < bucket.maxRequests))

/-- `recordRequest`: push the current timestamp. -/
def recordRequest (now : ℤ) (bucket : RateLimitBucket) : RateLimitBucket :=
  { bucket with requests := bucket.requests ++ [now] }

/-- `Math.min(...bucket.requests)` on a non-empty list. -/
def oldestOf (t : ℤ) (ts : List ℤ) : ℤ := ts.foldl min t

/-- `getWaitTime`: `0` on an empty list, otherwise
`max 0 (windowMs - (now - oldest))`. -/
def getWaitTime (now : ℤ) (bucket : RateLimitBucket) : ℤ :=
  match bucket.requests with
  | [] => 0
  | t :: ts => max 0 ((bucket.windowMs : ℤ) - (now - oldestOf t ts))

/-- A rate-limiter state: the current clock and the bucket contents. -/
structure RLState where
  now : ℤ
  bucket : RateLimitBucket
deriving DecidableEq

/-- Number of recorded timestamps currently inside the trailing window. -/
def windowCount (s : RLState) : ℕ :=
  (s.bucket.requests.filter (inWindow s.now s.bucket.windowMs)).length

-- =========================================================================
-- fetchWithRetry (source lines 174-250)
-- =========================================================================

/-- `RETRY_CONFIG.maxRetries`. -/
def maxRetries : ℕ := 3

/-- Outcome of one `fetch` call: a network/fetch exception, or a response
with an HTTP status and an optional parsed `Retry-After` header (seconds). -/
inductive FetchOutcome where
  | netError : FetchOutcome
  | ok (status : ℕ) (retryAfterSec : Option ℕ) : FetchOutcome
deriving DecidableEq

/-- Environment oracle for one `fetchWithRetry` call: the fetch outcome at
each attempt index, the wall-clock time each fetch takes, and the actual
(jittered, hence nondeterministic) backoff sleep durations. -/
structure RetryEnv where
  outcome : ℕ → FetchOutcome
  fetchMs : ℕ → ℕ
  backoffMs : ℕ → ℕ

/-- What `fetchWithRetry` produces: a returned `Response`, or one of the
thrown errors (`RateLimitError`, `OpenFoodFactsError` with `HTTP_ERROR`,
`NetworkError`). -/
inductive FetchResult where
  | response (status : ℕ) : FetchResult
  | rateLimitError (retryAfterMs : ℤ) : FetchResult
  | httpError (status : ℕ) : FetchResult
  | networkError : FetchResult
deriving DecidableEq

/-- `response.ok`: status in [200, 300). -/
def statusOk (status : ℕ) : Bool := 200 ≤ status && status < 300

/-- State after the rate-limit gate at the top of the loop body: the bucket
is pruned by `checkRateLimit`, and if the request was not allowed the caller
sleeps for `getWaitTime` (the final-attempt throw is handled by the loop
itself, not here). -/
def gateState (s : RLState) : RLState :=
  let cb := checkRateLimit s.now s.bucket
  if cb.2 then ⟨s.now, cb.1⟩ else ⟨s.now + getWaitTime s.now cb.1, cb.1⟩

/-- State after `recordRequest` (immediately following the gate). -/
def recordedState (s : RLState) : RLState :=
  ⟨(gateState s).now, recordRequest (gateState s).now (gateState s).bucket⟩

/-- The `for (attempt = 0; attempt <= maxRetries; attempt++)` loop of
`fetchWithRetry`.  `fuel` bounds the remaining iterations (the entry point
uses `maxRetries + 1`, making the fuel-exhausted branch the source's
unreachable final `throw new NetworkError('Maximum retries exceeded')`).
Returns the result, the final rate-limiter state, and the list of
intermediate rate-limiter states in execution order. -/
def fetchAttemptLoop (env : RetryEnv) :
    ℕ → ℕ → RLState → FetchResult × RLState × List RLState
  | 0, _, s => (.networkError, s, [])
  | fuel + 1, attempt, s =>
    let cb := checkRateLimit s.now s.bucket
    let s1 : RLState := ⟨s.now, cb.1⟩
    if !cb.2 && attempt == maxRetries then
      (.rateLimitError (getWaitTime s.now cb.1), s1, [s1])
    else
      let s2 := gateState s
      let s3 := recordedState s
      let s4 : RLState := ⟨s3.now + (env.fetchMs attempt : ℤ), s3.bucket⟩
      match env.outcome attempt with
      | .netError =>
        if attempt < maxRetries then
          let s5 : RLState := ⟨s4.now + (env.backoffMs attempt : ℤ), s4.bucket⟩
          let r := fetchAttemptLoop env fuel (attempt + 1) s5
          (r.1, r.2.1, s1 :: s2 :: s3 :: s4 :: s5 :: r.2.2)
        else
          (.networkError, s4, [s1, s2, s3, s4])
      | .ok status retryAfterSec =>
        if status == 429 then
          let waitTime : ℕ :=
            match retryAfterSec with
            | some sec => sec * 1000
            | none => 60000
          if attempt == maxRetries then
            (.rateLimitError (waitTime : ℤ), s4, [s1, s2, s3, s4])
          else
            let s5 : RLState := ⟨s4.now + (waitTime : ℤ), s4.bucket⟩
            let r := fetchAttemptLoop env fuel (attempt + 1) s5
            (r.1, r.2.1, s1 :: s2 :: s3 :: s4 :: s5 :: r.2.2)
        else if !statusOk status && status != 404 then
          if attempt < maxRetries && 500 ≤ status then
            let s5 : RLState := ⟨s4.now + (env.backoffMs attempt : ℤ), s4.bucket⟩
            let r := fetchAttemptLoop env fuel (attempt + 1) s5
            (r.1, r.2.1, s1 :: s2 :: s3 :: s4 :: s5 :: r.2.2)
          else
            (.httpError status, s4, [s1, s2, s3, s4])
        else
          (.response status, s4, [s1, s2, s3, s4])

/-- `fetchWithRetry` on a given rate-limiter state. -/
def fetchWithRetry (env : RetryEnv) (s : RLState) :
    FetchResult × RLState × List RLState :=
  fetchAttemptLoop env (maxRetries + 1) 0 s

/-- A sequential sequence of `fetchWithRetry` calls against one shared
budget.  Each call is preceded by an arbitrary non-negative clock advance
(`gapMs`) and carries its own environment oracle.  Returns the final state
and the concatenated trace of intermediate states. -/
def runCalls : List (ℕ × RetryEnv) → RLState → RLState × List RLState
  | [], s => (s, [])
  | (gapMs, env) :: rest, s =>
    let s0 : RLState := ⟨s.now + (gapMs : ℤ), s.bucket⟩
    let r := fetchWithRetry env s0
    let rr := runCalls rest r.2.1
    (rr.1, s0 :: (r.2.2 ++ rr.2))

-- =========================================================================
-- Raw upstream types (src types: OpenFoodFactsNutriments / Product / ...)
-- =========================================================================

/-- `OpenFoodFactsNutriments`: every field optional.  Field names follow the
TypeScript interface with `-` replaced by `_kcal`-style underscores. -/
structure OpenFoodFactsNutriments where
  energy_kcal_100g : Option ℚ := none
  energy_kcal_serving : Option ℚ := none
  energy_100g : Option ℚ := none
  energy_serving : Option ℚ := none
  energy_kcal : Option ℚ := none
  energy : Option ℚ := none
  proteins_100g : Option ℚ := none
  proteins_serving : Option ℚ := none
  proteins : Option ℚ := none
  carbohydrates_100g : Option ℚ := none
  carbohydrates_serving : Option ℚ := none
  carbohydrates : Option ℚ := none
  fat_100g : Option ℚ := none
  fat_serving : Option ℚ := none
  fat : Option ℚ := none
  fiber_100g : Option ℚ := none
  fiber_serving : Option ℚ := none
  sugars_100g : Option ℚ := none
  sugars_serving : Option ℚ := none
  saturated_fat_100g : Option ℚ := none
  saturated_fat_serving : Option ℚ := none
  sodium_100g : Option ℚ := none
  sodium_serving : Option ℚ := none
deriving DecidableEq

/-- `OpenFoodFactsProduct` (the fields this module reads). -/
structure OpenFoodFactsProduct where
  code : Option String := none
  id_field : Option String := none
  product_name : Option String := none
  product_name_en : Option String := none
  product_name_fr : Option String := none
  product_name_de : Option String := none
  generic_name : Option String := none
  brands : Option String := none
  serving_size : Option String := none
  serving_quantity : Option ℚ := none
  nutriments : Option OpenFoodFactsNutriments := none
  nutrition_grades : Option String := none
  nova_group : Option ℚ := none
  image_url : Option String := none
  image_small_url : Option String := none
  image_thumb_url : Option String := none
  image_front_url : Option String := none
  image_front_small_url : Option String := none
  completeness : Option ℚ := none
deriving DecidableEq

/-- `FoodSource`. -/
inductive FoodSource where
  | openfoodfacts | custom | manual
deriving DecidableEq

/-- Normalized `FoodItem`. -/
structure FoodItem where
  id : String
  source : FoodSource
  sourceId : Option String
  name : String
  brand : Option String
  servingSize : String
  servingQuantity : Option ℚ
  calories : ℚ
  protein : ℚ
  carbs : ℚ
  fat : ℚ
  fiber : Option ℚ
  sugar : Option ℚ
  saturatedFat : Option ℚ
  sodium : Option ℚ
  caloriesPer100g : Option ℚ
  proteinPer100g : Option ℚ
  carbsPer100g : Option ℚ
  fatPer100g : Option ℚ
  imageUrl : Option String
  thumbnailUrl : Option String
  nutritionGrade : Option String
  novaGroup : Option ℚ
  completeness : Option ℚ
deriving DecidableEq

-- =========================================================================
-- JavaScript truthiness helpers (|| on optional strings / numbers)
-- =========================================================================

/-- An optional string is truthy when present and non-empty. -/
def strTruthy : Option String → Bool
  | none => false
  | some s => s != ""

/-- `a || b` for an optional string with a string default. -/
def jsOrStr (a : Option String) (b : String) : String :=
  match a with
  | some s => if s = "" then b else s
  | none => b

/-- `a || b` where both sides are optional strings. -/
def jsOrOpt (a b : Option String) : Option String :=
  if strTruthy a then a else b

/-- `a || b` for an optional number with a numeric default (`0` and absent
are both falsy). -/
def jsOrQ (a : Option ℚ) (b : ℚ) : ℚ :=
  match a with
  | some x => if x = 0 then b else x
  | none => b

-- =========================================================================
-- Data transformation functions (source lines 256-467)
-- =========================================================================

/-- `getProductName`: priority chain over locale name fields. -/
def getProductName (product : OpenFoodFactsProduct) : String :=
  jsOrStr product.product_name
    (jsOrStr product.product_name_en
      (jsOrStr product.product_name_fr
        (jsOrStr product.product_name_de
          (jsOrStr product.generic_name "Unknown Product"))))

/-- `getBrand`: first comma-separated token, trimmed; absent if empty. -/
def getBrand (product : OpenFoodFactsProduct) : Option String :=
  match product.brands with
  | none => none
  | some brands =>
    if brands = "" then none
    else
      let brand := ((brands.splitOn ",").headD "").trim
      if brand = "" then none else some brand

/-- Digits of a decimal run, as a natural number accumulator. -/
def digitsVal (acc : ℕ) : List Char → ℕ
  | [] => acc
  | c :: cs => digitsVal (acc * 10 + (c.toNat - '0'.toNat)) cs

/-- Value of a fractional digit run (`"25"` ↦ `0.25`). -/
def fracVal : List Char → ℚ
  | [] => 0
  | c :: cs => (((c.toNat - '0'.toNat : ℕ) : ℚ) + fracVal cs) / 10

/-- Match `\d+(?:\.\d+)?` at the head of the character list; returns the
parsed value and the remaining characters. -/
def matchNumber (cs : List Char) : Option (ℚ × List Char) :=
  let ds := cs.takeWhile Char.isDigit
  let rest := cs.dropWhile Char.isDigit
  if ds.isEmpty then none
  else
    match rest with
    | '.' :: rest' =>
      let fs := rest'.takeWhile Char.isDigit
      if fs.isEmpty then some ((digitsVal 0 ds : ℚ), rest)
      else some ((digitsVal 0 ds : ℚ) + fracVal fs, rest'.dropWhile Char.isDigit)
    | _ => some ((digitsVal 0 ds : ℚ), rest)

/-- After the number, `\s*` then a unit test on the remaining characters. -/
def matchUnitAfter (unit : List Char → Bool) (cs : List Char) : Bool :=
  unit (cs.dropWhile Char.isWhitespace)

/-- Leftmost match of `(\d+(?:\.\d+)?)\s*<unit>`, returning capture group 1.
(The regex suffixes `(?:ram)?s?` are optional, so a match succeeds as soon
as the unit letter(s) appear; they never change the captured number.) -/
def findUnitValue (unit : List Char → Bool) : List Char → Option ℚ
  | [] => none
  | c :: cs =>
    match matchNumber (c :: cs) with
    | some (v, rest) => if matchUnitAfter unit rest then some v else findUnitValue unit cs
    | none => findUnitValue unit cs

/-- Unit test for `g(?:ram)?s?` (case-insensitive): next char is `g`/`G`. -/
def gramUnit : List Char → Bool
  | c :: _ => c = 'g' ∨ c = 'G'
  | [] => false

/-- Unit test for `ml` (case-insensitive). -/
def mlUnit : List Char → Bool
  | c :: c' :: _ => (c = 'm' ∨ c = 'M') ∧ (c' = 'l' ∨ c' = 'L')
  | _ => false

/-- `parseServingQuantity`: gram value if present, else millilitre value
(1 ml = 1 g), else none. -/
def parseServingQuantity (servingSize : String) : Option ℚ :=
  if servingSize = "" then none
  else
    match findUnitValue gramUnit servingSize.toList with
    | some v => some v
    | none => findUnitValue mlUnit servingSize.toList

/-- `getCalories`: priority chain over energy fields with the kJ/kcal
heuristic on the generic `energy` field. -/
def getCalories (nutriments : Option OpenFoodFactsNutriments)
    (per100g : Bool) : ℚ :=
  match nutriments with
  | none => 0
  | some n =>
    if per100g then
      match n.energy_kcal_100g with
      | some v => (jsRound v : ℚ)
      | none =>
        match n.energy_100g with
        | some v => (jsRound (v / kJperKcal) : ℚ)
        | none =>
          match n.energy_kcal with
          | some v => (jsRound v : ℚ)
          | none =>
            match n.energy with
            | some e =>
              if 400 < e then (jsRound (e / kJperKcal) : ℚ) else (jsRound e : ℚ)
            | none => 0
    else
      match n.energy_kcal_serving with
      | some v => (jsRound v : ℚ)
      | none =>
        match n.energy_serving with
        | some v => (jsRound (v / kJperKcal) : ℚ)
        | none => 0

/-- `getNutrient`, specialised to the two fields the string key selects:
the suffixed (`_100g`/`_serving`) field and the bare fallback field. -/
def getNutrient (suffixed base : Option ℚ) : ℚ :=
  match suffixed with
  | some v => round1 v
  | none =>
    match base with
    | some v => round1 v
    | none => 0

/-- `calculatePerServing`. -/
def calculatePerServing (per100g servingQuantityGrams : ℚ) : ℚ :=
  if servingQuantityGrams ≤ 0 then per100g
  else round1 (per100g * servingQuantityGrams / 100)

/-- Placeholder for `crypto.randomUUID()` (opaque fresh identifier). -/
def generatedUUID : String := "generated-uuid"

/-- `transformProduct`. -/
def transformProduct (product : OpenFoodFactsProduct) : FoodItem :=
  let n := product.nutriments
  let servingSize := jsOrStr product.serving_size "100g"
  let servingQuantity :=
    jsOrQ product.serving_quantity
      (jsOrQ (parseServingQuantity servingSize) 100)
  let caloriesPer100g := getCalories n true
  let proteinPer100g := getNutrient (n.bind (·.proteins_100g)) (n.bind (·.proteins))
  let carbsPer100g := getNutrient (n.bind (·.carbohydrates_100g)) (n.bind (·.carbohydrates))
  let fatPer100g := getNutrient (n.bind (·.fat_100g)) (n.bind (·.fat))
  { id := jsOrStr product.code (jsOrStr product.id_field generatedUUID)
    source := .openfoodfacts
    sourceId := product.code
    name := getProductName product
    brand := getBrand product
    servingSize := servingSize
    servingQuantity := some servingQuantity
    calories := calculatePerServing caloriesPer100g servingQuantity
    protein := calculatePerServing proteinPer100g servingQuantity
    carbs := calculatePerServing carbsPer100g servingQuantity
    fat := calculatePerServing fatPer100g servingQuantity
    caloriesPer100g := some caloriesPer100g
    proteinPer100g := some proteinPer100g
    carbsPer100g := some carbsPer100g
    fatPer100g := some fatPer100g
    fiber := some (getNutrient (n.bind (·.fiber_100g)) none)
    sugar := some (getNutrient (n.bind (·.sugars_100g)) none)
    saturatedFat := some (getNutrient (n.bind (·.saturated_fat_100g)) none)
    sodium := some (getNutrient (n.bind (·.sodium_100g)) none)
    imageUrl := jsOrOpt product.image_url product.image_front_url
    thumbnailUrl :=
      jsOrOpt product.image_thumb_url
        (jsOrOpt product.image_small_url product.image_front_small_url)
    nutritionGrade := product.nutrition_grades
    novaGroup := product.nova_group
    completeness := product.completeness }

/-- `hasValidNutrition`: requires one of the three recognised per-100g /
kcal energy fields plus one of the three recognised name fields. -/
def hasValidNutrition (product : OpenFoodFactsProduct) : Bool :=
  match product.nutriments with
  | none => false
  | some n =>
    (n.energy_kcal_100g.isSome || n.energy_100g.isSome || n.energy_kcal.isSome)
      && (strTruthy product.product_name || strTruthy product.product_name_en
          || strTruthy product.generic_name)

-- =========================================================================
-- Public API functions (source lines 488-649)
-- =========================================================================

/-- `MAX_PAGE_SIZE`. -/
def MAX_PAGE_SIZE : ℕ := 50

/-- Parsed search response body. -/
structure OpenFoodFactsSearchResponse where
  count : ℕ := 0
  page : ℕ := 0
  products : List OpenFoodFactsProduct := []
deriving DecidableEq

/-- `FoodSearchResult`. -/
structure FoodSearchResult where
  items : List FoodItem
  totalCount : ℕ
  page : ℕ
  pageSize : ℕ
  hasMore : Bool
deriving DecidableEq

/-- The response-shaping stage of `searchFoods` (everything after the
transport call): filter by `hasValidNutrition`, transform, paginate. -/
def searchFoodsResult (data : OpenFoodFactsSearchResponse)
    (page pageSize : ℕ) : FoodSearchResult :=
  let limitedPageSize := min pageSize MAX_PAGE_SIZE
  let validProducts := data.products.filter hasValidNutrition
  { items := validProducts.map transformProduct
    totalCount := data.count
    page := if data.page = 0 then page else data.page
    pageSize := limitedPageSize
    hasMore := decide (page * limitedPageSize < data.count) }

/-- Parsed product-lookup response body. -/
structure OpenFoodFactsProductResponse where
  code : String := ""
  product : Option OpenFoodFactsProduct := none
  status : ℕ := 0
deriving DecidableEq

/-- Result of one transport round trip for a lookup (the composition of
`fetchWithRetry` and JSON parsing): a parsed body, or a propagated error
identified by its `code` string. -/
inductive TransportOutcome where
  | parsed (data : OpenFoodFactsProductResponse)
  | failure (code : String)
deriving DecidableEq

/-- What `getFoodByBarcode` produces: an item, `null`, or a thrown
`OpenFoodFactsError` identified by its `code` string. -/
inductive LookupResult where
  | item (food : FoodItem)
  | notFound
  | error (code : String)
deriving DecidableEq

/-- `barcode.replace(/\D/g, '')`. -/
def cleanBarcode (barcode : String) : String :=
  String.mk (barcode.toList.filter Char.isDigit)

/-- The lookup URL for a cleaned barcode. -/
def productUrl (clean : String) : String :=
  "https://world.openfoodfacts.org/api/v0/product/" ++ clean ++ ".json"

/-- `getFoodByBarcode` over a transport oracle.  The boolean records
whether the network (transport) was contacted. -/
def getFoodByBarcode (transport : String → TransportOutcome)
    (barcode : String) : LookupResult × Bool :=
  let clean := cleanBarcode barcode
  if clean.length < 8 || 14 < clean.length then
    (.error "INVALID_BARCODE", false)
  else
    match transport (productUrl clean) with
    | .failure code => (.error code, true)
    | .parsed data =>
      if data.status != 1 || data.product.isNone then (.notFound, true)
      else
        match data.product with
        | none => (.notFound, true)
        | some product =>
          if !hasValidNutrition product then
            (.error "INCOMPLETE_DATA", true)
          else
            (.item (transformProduct product), true)

/-- `recalculateServing`.  The guard `!food.caloriesPer100g` is true for an
absent and for a zero baseline. -/
def recalculateServing (food : FoodItem) (newServingGrams : ℚ) : FoodItem :=
  match food.caloriesPer100g with
  | none => food
  | some c =>
    if c = 0 then food
    else
      { food with
        servingSize := toString newServingGrams ++ "g"
        servingQuantity := some newServingGrams
        calories := calculatePerServing c newServingGrams
        protein := calculatePerServing (food.proteinPer100g.getD 0) newServingGrams
        carbs := calculatePerServing (food.carbsPer100g.getD 0) newServingGrams
        fat := calculatePerServing (food.fatPer100g.getD 0) newServingGrams }

-- =========================================================================
-- Auxiliary definitions used by the statements below
-- =========================================================================

/-- Rate-limiter invariant: a positive configured maximum, and no more
in-window timestamps than that maximum. -/
def RLInv (s : RLState) : Prop :=
  1 ≤ s.bucket.maxRequests ∧ windowCount s ≤ s.bucket.maxRequests

/-- Environment whose fetches all succeed with HTTP 200 instantly. -/
def sampleEnv : RetryEnv :=
  { outcome := fun _ => .ok 200 none, fetchMs := fun _ => 0, backoffMs := fun _ => 0 }

/-- Environment whose fetches all return HTTP 404 instantly. -/
def sampleEnv404 : RetryEnv :=
  { outcome := fun _ => .ok 404 none, fetchMs := fun _ => 0, backoffMs := fun _ => 0 }

/-- Transport oracle returning a fixed parsed body for every URL. -/
def constTransport (data : OpenFoodFactsProductResponse) :
    String → TransportOutcome := fun _ => .parsed data

/-- Transport oracle whose round trip fails with a network error. -/
def failTransport : String → TransportOutcome :=
  fun _ => .failure "NETWORK_ERROR"

/-- A raw record whose only energy datum is the generic `energy` field and
whose only name field is `product_name_fr`. -/
def productEnergyOnlyFr : OpenFoodFactsProduct :=
  { product_name_fr := some "Baguette"
    nutriments := some { energy := some 95 } }

/-- A raw record with no nutriments and no name fields at all. -/
def emptyProduct : OpenFoodFactsProduct := {}

/-- A `FoodItem` with a per-100g calorie baseline of 95 kcal. -/
def item95 : FoodItem :=
  { id := "sample-id", source := .openfoodfacts, sourceId := some "12345678"
    name := "Sample", brand := none, servingSize := "100g"
    servingQuantity := some 100
    calories := 95, protein := 0, carbs := 0, fat := 0
    fiber := none, sugar := none, saturatedFat := none, sodium := none
    caloriesPer100g := some 95, proteinPer100g := some 0
    carbsPer100g := some 0, fatPer100g := some 0
    imageUrl := none, thumbnailUrl := none, nutritionGrade := none
    novaGroup := none, completeness := none }

/-- Nutriments carrying only the generic `energy` field. -/
def nutrGeneric (e : ℚ) : OpenFoodFactsNutriments := { energy := some e }

-- =========================================================================
-- Helper lemmas
-- =========================================================================

lemma jsRound_eq {x : ℚ} {n : ℤ} (h1 : (n : ℚ) ≤ x + 1/2)
    (h2 : x + 1/2 < n + 1) : jsRound x = n := by
  unfold jsRound
  exact Int.floor_eq_iff.mpr ⟨h1, h2⟩

lemma round1_eq {x : ℚ} {n : ℤ} (h1 : (n : ℚ) ≤ x * 10 + 1/2)
    (h2 : x * 10 + 1/2 < n + 1) : round1 x = (n : ℚ) / 10 := by
  unfold round1
  rw [jsRound_eq h1 h2]

lemma filter_length_mono {α : Type} (p q : α → Bool) (l : List α)
    (h : ∀ a ∈ l, p a = true → q a = true) :
    (l.filter p).length ≤ (l.filter q).length := by
  induction l with
  | nil => simp
  | cons a l ih =>
    have htail : ∀ b ∈ l, p b = true → q b = true :=
      fun b hb hpb => h b (List.mem_cons_of_mem a hb) hpb
    by_cases hpa : p a = true
    · have hqa : q a = true := h a (List.mem_cons_self a l) hpa
      rw [List.filter_cons_of_pos hpa, List.filter_cons_of_pos hqa]
      simpa using ih htail
    · rw [List.filter_cons_of_neg hpa]
      by_cases hqa : q a = true
      · rw [List.filter_cons_of_pos hqa]
        exact le_trans (ih htail) (Nat.le_succ _)
      · rw [List.filter_cons_of_neg hqa]
        exact ih htail

lemma length_filter_lt {α : Type} (p : α → Bool) (l : List α) (a : α)
    (ha : a ∈ l) (hpa : p a = false) :
    (l.filter p).length < l.length := by
  induction l with
  | nil => cases ha
  | cons b l ih =>
    rcases List.mem_cons.mp ha with rfl | hal
    · rw [List.filter_cons_of_neg (by simp [hpa])]
      exact Nat.lt_succ_of_le (List.length_filter_le p l)
    · by_cases hpb : p b = true
      · rw [List.filter_cons_of_pos hpb]
        simpa using Nat.succ_lt_succ (ih hal)
      · rw [List.filter_cons_of_neg hpb]
        exact Nat.lt_succ_of_lt (ih hal)

lemma oldestOf_mem (t : ℤ) (ts : List ℤ) : oldestOf t ts ∈ t :: ts := by
  induction ts generalizing t with
  | nil => simp [oldestOf]
  | cons u us ih =>
    have h := ih (min t u)
    simp only [oldestOf, List.foldl_cons] at h ⊢
    rcases List.mem_cons.mp h with h1 | h2
    · rw [h1]
      rcases min_choice t u with hm | hm <;> rw [hm] <;> simp
    · exact List.mem_cons_of_mem _ (List.mem_cons_of_mem _ h2)

lemma oldestOf_le (t : ℤ) (ts : List ℤ) : ∀ x ∈ t :: ts, oldestOf t ts ≤ x := by
  induction ts generalizing t with
  | nil =>
    intro x hx
    simp only [List.mem_singleton] at hx
    simp [oldestOf, hx]
  | cons u us ih =>
    intro x hx
    simp only [oldestOf, List.foldl_cons]
    have hfold : List.foldl min (min t u) us ≤ min t u :=
      ih (min t u) (min t u) (List.mem_cons_self _ _)
    rcases List.mem_cons.mp hx with rfl | hx'
    · exact le_trans hfold (min_le_left _ _)
    · rcases List.mem_cons.mp hx' with rfl | hx''
      · exact le_trans hfold (min_le_right _ _)
      · exact ih (min t u) x (List.mem_cons_of_mem _ hx'')

-- Rate limiter lemmas

lemma inWindow_of_inWindow_add {now d : ℤ} {w : ℕ} {t : ℤ} (hd : 0 ≤ d)
    (h : inWindow (now + d) w t = true) : inWindow now w t = true := by
  simp only [inWindow, decide_eq_true_eq] at h ⊢
  linarith

lemma windowCount_advance {now d : ℤ} (hd : 0 ≤ d) (b : RateLimitBucket) :
    windowCount ⟨now + d, b⟩ ≤ windowCount ⟨now, b⟩ :=
  filter_length_mono _ _ _ (fun t _ ht => inWindow_of_inWindow_add hd ht)

lemma checkRateLimit_requests (now : ℤ) (b : RateLimitBucket) :
    (checkRateLimit now b).1.requests =
      b.requests.filter (inWindow now b.windowMs) := rfl

lemma checkRateLimit_max (now : ℤ) (b : RateLimitBucket) :
    (checkRateLimit now b).1.maxRequests = b.maxRequests := rfl

lemma checkRateLimit_window (now : ℤ) (b : RateLimitBucket) :
    (checkRateLimit now b).1.windowMs = b.windowMs := rfl

lemma checkRateLimit_allowed_iff (now : ℤ) (b : RateLimitBucket) :
    (checkRateLimit now b).2 = true ↔
      (checkRateLimit now b).1.requests.length < b.maxRequests := by
  simp [checkRateLimit]

lemma mem_checkRateLimit_inWindow {now : ℤ} {b : RateLimitBucket} {t : ℤ}
    (ht : t ∈ (checkRateLimit now b).1.requests) :
    inWindow now b.windowMs t = true := by
  rw [checkRateLimit_requests] at ht
  exact (List.mem_filter.mp ht).2

lemma windowCount_of_filtered (now : ℤ) (b : RateLimitBucket) :
    windowCount ⟨now, (checkRateLimit now b).1⟩ =
      (checkRateLimit now b).1.requests.length := by
  simp only [windowCount, checkRateLimit, List.filter_filter, Bool.and_self]

lemma windowCount_check (now : ℤ) (b : RateLimitBucket) :
    windowCount ⟨now, (checkRateLimit now b).1⟩ = windowCount ⟨now, b⟩ := by
  rw [windowCount_of_filtered]
  rfl

lemma windowCount_record_le (now : ℤ) (b : RateLimitBucket) :
    windowCount ⟨now, recordRequest now b⟩ ≤ windowCount ⟨now, b⟩ + 1 := by
  simp only [windowCount, recordRequest, List.filter_append, List.length_append]
  cases h : inWindow now b.windowMs now <;>
    simp [List.filter_cons, List.filter_nil, h]

lemma getWaitTime_nonneg (now : ℤ) (b : RateLimitBucket) :
    0 ≤ getWaitTime now b := by
  unfold getWaitTime
  cases b.requests with
  | nil => exact le_refl 0
  | cons t ts => exact le_max_left 0 _

lemma gateState_eq_pos (s : RLState)
    (h : (checkRateLimit s.now s.bucket).2 = true) :
    gateState s = ⟨s.now, (checkRateLimit s.now s.bucket).1⟩ := by
  simp [gateState, h]

lemma gateState_eq_neg (s : RLState)
    (h : (checkRateLimit s.now s.bucket).2 = false) :
    gateState s = ⟨s.now + getWaitTime s.now (checkRateLimit s.now s.bucket).1,
                   (checkRateLimit s.now s.bucket).1⟩ := by
  simp [gateState, h]

lemma gateState_bucket (s : RLState) :
    (gateState s).bucket = (checkRateLimit s.now s.bucket).1 := by
  simp only [gateState]
  split <;> rfl

lemma gateState_max (s : RLState) :
    (gateState s).bucket.maxRequests = s.bucket.maxRequests := by
  rw [gateState_bucket, checkRateLimit_max]

lemma recordRequest_max (now : ℤ) (b : RateLimitBucket) :
    (recordRequest now b).maxRequests = b.maxRequests := rfl

lemma recordedState_max (s : RLState) :
    (recordedState s).bucket.maxRequests = s.bucket.maxRequests := by
  show (recordRequest (gateState s).now (gateState s).bucket).maxRequests
      = s.bucket.maxRequests
  rw [recordRequest_max, gateState_max]

lemma RLInv_check (s : RLState) (h : RLInv s) :
    RLInv ⟨s.now, (checkRateLimit s.now s.bucket).1⟩ := by
  constructor
  · show 1 ≤ (checkRateLimit s.now s.bucket).1.maxRequests
    rw [checkRateLimit_max]
    exact h.1
  · show windowCount _ ≤ (checkRateLimit s.now s.bucket).1.maxRequests
    rw [checkRateLimit_max, windowCount_check]
    exact h.2

lemma RLInv_advance {s : RLState} {d : ℤ} (hd : 0 ≤ d) (h : RLInv s) :
    RLInv ⟨s.now + d, s.bucket⟩ :=
  ⟨h.1, le_trans (windowCount_advance hd s.bucket) h.2⟩

lemma filter_drop_oldest (now : ℤ) (w : ℕ) (t : ℤ) (ts : List ℤ)
    (hall : ∀ x ∈ t :: ts, inWindow now w x = true) :
    ((t :: ts).filter
        (inWindow (now + max 0 ((w : ℤ) - (now - oldestOf t ts))) w)).length
      < (t :: ts).length := by
  have hmem : oldestOf t ts ∈ t :: ts := oldestOf_mem t ts
  have hlt : now - oldestOf t ts < (w : ℤ) := by
    simpa [inWindow, decide_eq_true_eq] using hall _ hmem
  have hmax : max 0 ((w : ℤ) - (now - oldestOf t ts))
      = (w : ℤ) - (now - oldestOf t ts) := max_eq_right (by linarith)
  apply length_filter_lt _ _ (oldestOf t ts) hmem
  rw [hmax]
  simp only [inWindow, decide_eq_false_iff_not, not_lt]
  linarith

lemma full_requests_nonempty (s : RLState) (hmax : 1 ≤ s.bucket.maxRequests)
    (hfull : (checkRateLimit s.now s.bucket).2 = false) :
    (checkRateLimit s.now s.bucket).1.requests ≠ [] := by
  intro hnil
  have := (checkRateLimit_allowed_iff s.now s.bucket).mpr
    (by rw [hnil]; simpa using hmax)
  rw [hfull] at this
  cases this

lemma windowCount_gate_of_full (s : RLState)
    (hfull : (checkRateLimit s.now s.bucket).2 = false)
    (hne : (checkRateLimit s.now s.bucket).1.requests ≠ []) :
    windowCount (gateState s) <
      (checkRateLimit s.now s.bucket).1.requests.length := by
  rw [gateState_eq_neg s hfull]
  cases hreq : (checkRateLimit s.now s.bucket).1.requests with
  | nil => exact absurd hreq hne
  | cons t ts =>
    have hall : ∀ x ∈ t :: ts, inWindow s.now s.bucket.windowMs x = true := by
      intro x hx
      exact mem_checkRateLimit_inWindow (by rw [hreq]; exact hx)
    have hwait : getWaitTime s.now (checkRateLimit s.now s.bucket).1
        = max 0 ((s.bucket.windowMs : ℤ) - (s.now - oldestOf t ts)) := by
      simp [getWaitTime, hreq, checkRateLimit_window]
    show (((checkRateLimit s.now s.bucket).1.requests).filter _).length < _
    rw [hreq, hwait]
    have hw : (checkRateLimit s.now s.bucket).1.windowMs = s.bucket.windowMs :=
      checkRateLimit_window s.now s.bucket
    simpa [windowCount, hw] using filter_drop_oldest s.now s.bucket.windowMs t ts hall

lemma windowCount_gate_lt_max (s : RLState) (h : RLInv s) :
    windowCount (gateState s) < s.bucket.maxRequests := by
  by_cases hall : (checkRateLimit s.now s.bucket).2 = true
  · rw [gateState_eq_pos s hall, windowCount_of_filtered]
    exact (checkRateLimit_allowed_iff _ _).mp hall
  · have hfull : (checkRateLimit s.now s.bucket).2 = false :=
      Bool.not_eq_true _ ▸ Bool.eq_false_iff.mpr hall
    have hne := full_requests_nonempty s h.1 hfull
    calc windowCount (gateState s)
        < (checkRateLimit s.now s.bucket).1.requests.length :=
          windowCount_gate_of_full s hfull hne
      _ ≤ s.bucket.maxRequests := by
          rw [← windowCount_of_filtered, windowCount_check]
          exact h.2

lemma RLInv_gate (s : RLState) (h : RLInv s) : RLInv (gateState s) := by
  constructor
  · rw [gateState_max]
    exact h.1
  · rw [gateState_max]
    exact le_of_lt (windowCount_gate_lt_max s h)

lemma RLInv_recorded (s : RLState) (h : RLInv s) : RLInv (recordedState s) := by
  constructor
  · rw [recordedState_max]
    exact h.1
  · rw [recordedState_max]
    have hle : windowCount (recordedState s) ≤ windowCount (gateState s) + 1 :=
      windowCount_record_le (gateState s).now (gateState s).bucket
    have hlt := windowCount_gate_lt_max s h
    omega

lemma RLMax_check (mx : ℕ) (s : RLState) (h : RLInv s ∧ s.bucket.maxRequests = mx) :
    RLInv ⟨s.now, (checkRateLimit s.now s.bucket).1⟩ ∧
      (checkRateLimit s.now s.bucket).1.maxRequests = mx :=
  ⟨RLInv_check s h.1, by rw [checkRateLimit_max]; exact h.2⟩

lemma RLMax_gate (mx : ℕ) (s : RLState) (h : RLInv s ∧ s.bucket.maxRequests = mx) :
    RLInv (gateState s) ∧ (gateState s).bucket.maxRequests = mx :=
  ⟨RLInv_gate s h.1, by rw [gateState_max]; exact h.2⟩

lemma RLMax_recorded (mx : ℕ) (s : RLState) (h : RLInv s ∧ s.bucket.maxRequests = mx) :
    RLInv (recordedState s) ∧ (recordedState s).bucket.maxRequests = mx :=
  ⟨RLInv_recorded s h.1, by rw [recordedState_max]; exact h.2⟩

lemma RLMax_advance (mx : ℕ) {s : RLState} {d : ℤ} (hd : 0 ≤ d)
    (h : RLInv s ∧ s.bucket.maxRequests = mx) :
    RLInv ⟨s.now + d, s.bucket⟩ ∧ (⟨s.now + d, s.bucket⟩ : RLState).bucket.maxRequests = mx :=
  ⟨RLInv_advance hd h.1, h.2⟩

lemma RLMax_advance_nat (mx : ℕ) (s : RLState) (d : ℕ)
    (h : RLInv s ∧ s.bucket.maxRequests = mx) :
    RLInv ⟨s.now + (d : ℤ), s.bucket⟩ ∧
      (⟨s.now + (d : ℤ), s.bucket⟩ : RLState).bucket.maxRequests = mx :=
  ⟨RLInv_advance (Int.natCast_nonneg _) h.1, h.2⟩

lemma fetchAttemptLoop_inv (env : RetryEnv) (mx : ℕ) :
    ∀ (fuel attempt : ℕ) (s : RLState),
      RLInv s ∧ s.bucket.maxRequests = mx →
      (RLInv (fetchAttemptLoop env fuel attempt s).2.1 ∧
        (fetchAttemptLoop env fuel attempt s).2.1.bucket.maxRequests = mx) ∧
      ∀ st ∈ (fetchAttemptLoop env fuel attempt s).2.2,
        RLInv st ∧ st.bucket.maxRequests = mx := by
  intro fuel
  induction fuel with
  | zero =>
    intro attempt s h
    exact ⟨h, by simp [fetchAttemptLoop]⟩
  | succ fuel ih =>
    intro attempt s h
    have h1 : RLInv (⟨s.now, (checkRateLimit s.now s.bucket).1⟩ : RLState) ∧
        (⟨s.now, (checkRateLimit s.now s.bucket).1⟩ : RLState).bucket.maxRequests = mx :=
      RLMax_check mx s h
    have h2 := RLMax_gate mx s h
    have h3 := RLMax_recorded mx s h
    have h4 := RLMax_advance_nat mx (recordedState s) (env.fetchMs attempt) h3
    cases hgb : (!(checkRateLimit s.now s.bucket).2 && (attempt == maxRetries)) with
    | true =>
      simp only [fetchAttemptLoop, hgb, if_true]
      refine ⟨h1, ?_⟩
      intro st hst
      simp only [List.mem_singleton] at hst
      rw [hst]
      exact h1
    | false =>
      simp only [fetchAttemptLoop, hgb, Bool.false_eq_true, if_false]
      cases ho : env.outcome attempt with
      | netError =>
        by_cases ha : attempt < maxRetries
        · simp only [ha, if_true]
          have h5 := RLMax_advance_nat mx
            ⟨(recordedState s).now + (env.fetchMs attempt : ℤ), (recordedState s).bucket⟩
            (env.backoffMs attempt) h4
          have hrec := ih (attempt + 1)
            ⟨(recordedState s).now + (env.fetchMs attempt : ℤ) + (env.backoffMs attempt : ℤ),
             (recordedState s).bucket⟩ h5
          refine ⟨hrec.1, ?_⟩
          intro st hst
          simp only [List.mem_cons] at hst
          rcases hst with rfl | rfl | rfl | rfl | rfl | hst
          · exact h1
          · exact h2
          · exact h3
          · exact h4
          · exact h5
          · exact hrec.2 st hst
        · simp only [ha, if_false]
          refine ⟨h4, ?_⟩
          intro st hst
          simp only [List.mem_cons, List.not_mem_nil, or_false] at hst
          rcases hst with rfl | rfl | rfl | rfl
          · exact h1
          · exact h2
          · exact h3
          · exact h4
      | ok status retryAfterSec =>
        cases h429 : (status == 429) with
        | true =>
          cases haf : (attempt == maxRetries) with
          | true =>
            simp only [h429, haf, if_true]
            refine ⟨h4, ?_⟩
            intro st hst
            simp only [List.mem_cons, List.not_mem_nil, or_false] at hst
            rcases hst with rfl | rfl | rfl | rfl
            · exact h1
            · exact h2
            · exact h3
            · exact h4
          | false =>
            simp only [h429, haf, if_true, Bool.false_eq_true, if_false]
            cases retryAfterSec with
            | none =>
              have h5 := RLMax_advance_nat mx
                ⟨(recordedState s).now + (env.fetchMs attempt : ℤ), (recordedState s).bucket⟩
                60000 h4
              have hrec := ih (attempt + 1)
                ⟨(recordedState s).now + (env.fetchMs attempt : ℤ) + ((60000 : ℕ) : ℤ),
                 (recordedState s).bucket⟩ h5
              refine ⟨hrec.1, ?_⟩
              intro st hst
              simp only [List.mem_cons] at hst
              rcases hst with rfl | rfl | rfl | rfl | rfl | hst
              · exact h1
              · exact h2
              · exact h3
              · exact h4
              · exact h5
              · exact hrec.2 st hst
            | some sec =>
              have h5 := RLMax_advance_nat mx
                ⟨(recordedState s).now + (env.fetchMs attempt : ℤ), (recordedState s).bucket⟩
                (sec * 1000) h4
              have hrec := ih (attempt + 1)
                ⟨(recordedState s).now + (env.fetchMs attempt : ℤ) + ((sec * 1000 : ℕ) : ℤ),
                 (recordedState s).bucket⟩ h5
              refine ⟨hrec.1, ?_⟩
              intro st hst
              simp only [List.mem_cons] at hst
              rcases hst with rfl | rfl | rfl | rfl | rfl | hst
              · exact h1
              · exact h2
              · exact h3
              · exact h4
              · exact h5
              · exact hrec.2 st hst
        | false =>
          cases hbad : (!statusOk status && status != 404) with
          | true =>
            by_cases hra : attempt < maxRetries
            · by_cases hrs : 500 ≤ status
              · simp only [h429, Bool.false_eq_true, if_false, hbad, if_true,
                  hra, hrs, decide_True, Bool.and_self]
                have h5 := RLMax_advance_nat mx
                  ⟨(recordedState s).now + (env.fetchMs attempt : ℤ), (recordedState s).bucket⟩
                  (env.backoffMs attempt) h4
                have hrec := ih (attempt + 1)
                  ⟨(recordedState s).now + (env.fetchMs attempt : ℤ) + (env.backoffMs attempt : ℤ),
                   (recordedState s).bucket⟩ h5
                refine ⟨hrec.1, ?_⟩
                intro st hst
                simp only [List.mem_cons] at hst
                rcases hst with rfl | rfl | rfl | rfl | rfl | hst
                · exact h1
                · exact h2
                · exact h3
                · exact h4
                · exact h5
                · exact hrec.2 st hst
              · simp only [h429, Bool.false_eq_true, if_false, hbad, if_true,
                  hrs, decide_False, Bool.and_false, Bool.false_eq_true]
                refine ⟨h4, ?_⟩
                intro st hst
                simp only [List.mem_cons, List.not_mem_nil, or_false] at hst
                rcases hst with rfl | rfl | rfl | rfl
                · exact h1
                · exact h2
                · exact h3
                · exact h4
            · simp only [h429, Bool.false_eq_true, if_false, hbad, if_true,
                hra, decide_False, Bool.false_and, Bool.false_eq_true]
              refine ⟨h4, ?_⟩
              intro st hst
              simp only [List.mem_cons, List.not_mem_nil, or_false] at hst
              rcases hst with rfl | rfl | rfl | rfl
              · exact h1
              · exact h2
              · exact h3
              · exact h4
          | false =>
            simp only [h429, Bool.false_eq_true, if_false, hbad]
            refine ⟨h4, ?_⟩
            intro st hst
            simp only [List.mem_cons, List.not_mem_nil, or_false] at hst
            rcases hst with rfl | rfl | rfl | rfl
            · exact h1
            · exact h2
            · exact h3
            · exact h4

lemma runCalls_inv (mx : ℕ) :
    ∀ (calls : List (ℕ × RetryEnv)) (s : RLState),
      RLInv s ∧ s.bucket.maxRequests = mx →
      (RLInv (runCalls calls s).1 ∧ (runCalls calls s).1.bucket.maxRequests = mx) ∧
      ∀ st ∈ (runCalls calls s).2, RLInv st ∧ st.bucket.maxRequests = mx := by
  intro calls
  induction calls with
  | nil =>
    intro s h
    exact ⟨h, by simp [runCalls]⟩
  | cons c rest ih =>
    intro s h
    obtain ⟨gap, env⟩ := c
    have h0 := RLMax_advance mx (d := (gap : ℤ)) (Int.natCast_nonneg _) h
    have hf := fetchAttemptLoop_inv env mx (maxRetries + 1) 0 _ h0
    have hr := ih _ hf.1
    refine ⟨?_, ?_⟩
    · simpa only [runCalls, fetchWithRetry] using hr.1
    · intro st hst
      simp only [runCalls, fetchWithRetry, List.mem_cons, List.mem_append] at hst
      rcases hst with rfl | hst | hst
      · exact h0
      · exact hf.2 st hst
      · exact hr.2 st hst

-- =========================================================================
-- Claim C1
-- =========================================================================

/-- C1: for every budget with a positive configured maximum (both the search
and the product budget are configured that way) and every sequential sequence
of `fetchWithRetry` calls starting from an empty budget, the number of
recorded timestamps inside the trailing window never exceeds the maximum at
any intermediate state of the execution; an attempt that finds the budget
full on the final attempt throws a `RateLimitError` without recording
anything, and on a non-final attempt its sleep lasts until the oldest
in-window timestamp has left the window, strictly decreasing the in-window
count before the new timestamp is recorded. -/
theorem fetchWithRetry_window_invariant :
    (∀ (mx w : ℕ), 1 ≤ mx → ∀ (calls : List (ℕ × RetryEnv)) (t0 : ℤ),
       ∀ st ∈ (runCalls calls ⟨t0, ⟨[], mx, w⟩⟩).2, windowCount st ≤ mx)
    ∧ (∀ (env : RetryEnv) (s : RLState),
        (checkRateLimit s.now s.bucket).2 = false →
          (fetchAttemptLoop env 1 maxRetries s).1
              = .rateLimitError (getWaitTime s.now (checkRateLimit s.now s.bucket).1)
            ∧ (fetchAttemptLoop env 1 maxRetries s).2.1.bucket.requests
              = (checkRateLimit s.now s.bucket).1.requests)
    ∧ (∀ s : RLState, 1 ≤ s.bucket.maxRequests →
        (checkRateLimit s.now s.bucket).2 = false →
          windowCount (gateState s)
            < windowCount ⟨s.now, (checkRateLimit s.now s.bucket).1⟩) := by
  refine ⟨?_, ?_, ?_⟩
  · intro mx w hmx calls t0 st hst
    have h0 : RLInv (⟨t0, ⟨[], mx, w⟩⟩ : RLState) ∧
        (⟨t0, ⟨[], mx, w⟩⟩ : RLState).bucket.maxRequests = mx := by
      refine ⟨⟨hmx, ?_⟩, rfl⟩
      simp [windowCount]
    have hm := (runCalls_inv mx calls _ h0).2 st hst
    rw [← hm.2]
    exact hm.1.2
  · intro env s hfull
    exact ⟨by simp [fetchAttemptLoop, hfull], by simp [fetchAttemptLoop, hfull]⟩
  · intro s hmax hfull
    have hne := full_requests_nonempty s hmax hfull
    have hlt := windowCount_gate_of_full s hfull hne
    rw [windowCount_of_filtered]
    exact hlt

/-- Witness for C1: the head state of a concrete one-call run at the search
budget configuration (10 requests / 60000 ms). -/
theorem fetchWithRetry_window_invariant_witness :
    windowCount ⟨(0 : ℤ), ⟨[], 10, 60000⟩⟩ ≤ 10 :=
  fetchWithRetry_window_invariant.1 10 60000 (by norm_num)
    [((0 : ℕ), sampleEnv)] 0 ⟨(0 : ℤ), ⟨[], 10, 60000⟩⟩ (by decide)

-- =========================================================================
-- Claim C2
-- =========================================================================

/-- C2 counterexample: a budget holding one fresh timestamp, far below its
maximum of 10.  The rate-limit check allows a request, yet `getWaitTime`
returns the full window (60000 ms), not zero — the claim "the wait-time
function returns zero whenever the rate-limit check currently allows a
request" is false on the code. -/
theorem getWaitTime_allowed_counterexample :
    (checkRateLimit 0 ⟨[0], 10, 60000⟩).2 = true
    ∧ getWaitTime 0 (checkRateLimit 0 ⟨[0], 10, 60000⟩).1 = 60000
    ∧ (60000 : ℤ) ≠ 0 := by decide

/-- C2 amended: `getWaitTime` returns zero on an empty request list; it is
**not** zero merely because the check allows (see the counterexample).  When
the check has just pruned the list and reports the budget full (for a budget
with a positive maximum), it returns the positive time until the oldest
in-window timestamp expires: after exactly that long the in-window count has
strictly decreased, and for any shorter non-negative delay every pruned
timestamp is still inside the window. -/
theorem getWaitTime_amended :
    (∀ (now : ℤ) (b : RateLimitBucket), b.requests = [] → getWaitTime now b = 0)
    ∧ (∀ (now : ℤ) (b : RateLimitBucket), 1 ≤ b.maxRequests →
        (checkRateLimit now b).2 = false →
          0 < getWaitTime now (checkRateLimit now b).1
          ∧ windowCount ⟨now + getWaitTime now (checkRateLimit now b).1,
                (checkRateLimit now b).1⟩
              < windowCount ⟨now, (checkRateLimit now b).1⟩
          ∧ ∀ d : ℤ, 0 ≤ d → d < getWaitTime now (checkRateLimit now b).1 →
              windowCount ⟨now + d, (checkRateLimit now b).1⟩
                = (checkRateLimit now b).1.requests.length) := by
  constructor
  · intro now b hb
    simp [getWaitTime, hb]
  · intro now b hmax hfull
    have hne := full_requests_nonempty ⟨now, b⟩ hmax hfull
    cases hreq : (checkRateLimit now b).1.requests with
    | nil => exact absurd hreq hne
    | cons t ts =>
      have hall : ∀ x ∈ t :: ts, inWindow now b.windowMs x = true := by
        intro x hx
        exact mem_checkRateLimit_inWindow (b := b) (by rw [hreq]; exact hx)
      have hmem : oldestOf t ts ∈ t :: ts := oldestOf_mem t ts
      have holdlt : now - oldestOf t ts < (b.windowMs : ℤ) := by
        simpa [inWindow, decide_eq_true_eq] using hall _ hmem
      have hwait : getWaitTime now (checkRateLimit now b).1
          = (b.windowMs : ℤ) - (now - oldestOf t ts) := by
        simp only [getWaitTime, hreq, checkRateLimit_window]
        exact max_eq_right (by linarith)
      refine ⟨?_, ?_, ?_⟩
      · rw [hwait]
        linarith
      · have hgate := windowCount_gate_of_full ⟨now, b⟩ hfull hne
        rw [gateState_eq_neg ⟨now, b⟩ hfull] at hgate
        rw [windowCount_of_filtered]
        exact hgate
      · intro d hd0 hdlt
        rw [hwait] at hdlt
        have hkeep : ∀ x ∈ (checkRateLimit now b).1.requests,
            inWindow (now + d) (checkRateLimit now b).1.windowMs x = true := by
          intro x hx
          have hx' : x ∈ t :: ts := by rw [← hreq]; exact hx
          have hxin : now - x < (b.windowMs : ℤ) := by
            simpa [inWindow, decide_eq_true_eq] using hall x hx'
          have hole : oldestOf t ts ≤ x := oldestOf_le t ts x hx'
          rw [checkRateLimit_window]
          simp only [inWindow, decide_eq_true_eq]
          linarith
        show ((checkRateLimit now b).1.requests.filter
            (inWindow (now + d) (checkRateLimit now b).1.windowMs)).length = _
        rw [List.filter_eq_self.mpr hkeep, hreq]

/-- Witness for C2's amended theorem at a concrete full budget (10 fresh
timestamps, maximum 10). -/
theorem getWaitTime_amended_witness :
    0 < getWaitTime 0 (checkRateLimit 0 ⟨List.replicate 10 0, 10, 60000⟩).1 :=
  (getWaitTime_amended.2 0 ⟨List.replicate 10 0, 10, 60000⟩ (by norm_num)
    (by decide)).1

-- =========================================================================
-- Claim C3
-- =========================================================================

/-- C3: a 404 upstream response is never treated as an error and never
retried — whatever the environment does at other attempts, an attempt of the
retry loop that reaches its fetch and receives a 404 returns that very
response immediately; in particular `fetchWithRetry` returns the 404 of a
first-attempt fetch; and `getFoodByBarcode` maps a not-found product
response (status ≠ 1 or a missing product) to a null result rather than
throwing. -/
theorem notFound_passthrough :
    (∀ (env : RetryEnv) (s : RLState) (attempt fuel : ℕ) (r : Option ℕ),
        env.outcome attempt = .ok 404 r →
        ((checkRateLimit s.now s.bucket).2 = true ∨ attempt ≠ maxRetries) →
        (fetchAttemptLoop env (fuel + 1) attempt s).1 = .response 404)
    ∧ (∀ (env : RetryEnv) (s : RLState) (r : Option ℕ),
        env.outcome 0 = .ok 404 r →
        (fetchWithRetry env s).1 = .response 404)
    ∧ (∀ (transport : String → TransportOutcome) (barcode : String)
        (data : OpenFoodFactsProductResponse),
        8 ≤ (cleanBarcode barcode).length → (cleanBarcode barcode).length ≤ 14 →
        transport (productUrl (cleanBarcode barcode)) = .parsed data →
        (data.status ≠ 1 ∨ data.product = none) →
        getFoodByBarcode transport barcode = (.notFound, true)) := by
  have hgen : ∀ (env : RetryEnv) (s : RLState) (attempt fuel : ℕ) (r : Option ℕ),
      env.outcome attempt = .ok 404 r →
      ((checkRateLimit s.now s.bucket).2 = true ∨ attempt ≠ maxRetries) →
      (fetchAttemptLoop env (fuel + 1) attempt s).1 = .response 404 := by
    intro env s attempt fuel r ho hside
    have hguard : (!(checkRateLimit s.now s.bucket).2
        && (attempt == maxRetries)) = false := by
      rcases hside with h | h
      · simp [h]
      · simp [beq_eq_false_iff_ne.mpr h]
    simp [fetchAttemptLoop, hguard, ho, statusOk]
  refine ⟨hgen, ?_, ?_⟩
  · intro env s r ho
    exact hgen env s 0 maxRetries r ho (Or.inr (by norm_num [maxRetries]))
  · intro transport barcode data h8 h14 htr hnf
    have hcond : ((cleanBarcode barcode).length < 8
        || 14 < (cleanBarcode barcode).length) = false := by
      simp only [Bool.or_eq_false_iff, decide_eq_false_iff_not, not_lt]
      exact ⟨h8, h14⟩
    have hnull : (data.status != 1 || data.product.isNone) = true := by
      rcases hnf with h | h
      · simp [bne, h]
      · simp [h]
    simp only [getFoodByBarcode, hcond, Bool.false_eq_true, if_false, htr,
      hnull, if_true]

/-- Witness for C3: a concrete 404 run and a concrete not-found lookup. -/
theorem notFound_passthrough_witness :
    (fetchWithRetry sampleEnv404 ⟨0, ⟨[], 100, 60000⟩⟩).1 = .response 404
    ∧ getFoodByBarcode (constTransport { status := 0 }) "12345678"
        = (.notFound, true) :=
  ⟨notFound_passthrough.2.1 sampleEnv404 ⟨0, ⟨[], 100, 60000⟩⟩ none rfl,
   notFound_passthrough.2.2 (constTransport { status := 0 }) "12345678"
     { status := 0 } (by decide) (by decide) rfl (Or.inl (by decide))⟩

-- =========================================================================
-- Claim C6
-- =========================================================================

/-- C6: `getFoodByBarcode` strips non-digit characters and rejects the
barcode with an `INVALID_BARCODE` error before any transport call whenever
fewer than 8 or more than 14 digits remain; in particular every transport
sees "12345" rejected without being contacted, while "12345678" always
reaches the transport. -/
theorem barcode_validated_before_network :
    (∀ (transport : String → TransportOutcome) (barcode : String),
        ((cleanBarcode barcode).length < 8 ∨ 14 < (cleanBarcode barcode).length) →
        getFoodByBarcode transport barcode = (.error "INVALID_BARCODE", false))
    ∧ (∀ transport : String → TransportOutcome,
        getFoodByBarcode transport "12345" = (.error "INVALID_BARCODE", false))
    ∧ (∀ transport : String → TransportOutcome,
        (getFoodByBarcode transport "12345678").2 = true) := by
  refine ⟨?_, ?_, ?_⟩
  · intro transport barcode hbad
    have hcond : ((cleanBarcode barcode).length < 8
        || 14 < (cleanBarcode barcode).length) = true := by
      rcases hbad with h | h <;> simp [h]
    simp only [getFoodByBarcode, hcond, if_true]
  · intro transport
    rfl
  · intro transport
    have hcond : ((cleanBarcode "12345678").length < 8
        || 14 < (cleanBarcode "12345678").length) = false := by decide
    simp only [getFoodByBarcode, hcond, Bool.false_eq_true, if_false]
    cases htr : transport (productUrl (cleanBarcode "12345678")) with
    | failure code => simp [htr]
    | parsed data =>
      simp only [htr]
      by_cases h1 : (data.status != 1 || data.product.isNone) = true
      · simp [h1]
      · simp only [Bool.not_eq_true] at h1
        simp only [h1, Bool.false_eq_true, if_false]
        cases hp : data.product with
        | none => simp
        | some p => cases hv : hasValidNutrition p <;> simp [hv]

/-- Witness for C6: a 3-digit barcode is rejected without any network call. -/
theorem barcode_validated_before_network_witness :
    getFoodByBarcode failTransport "123" = (.error "INVALID_BARCODE", false) :=
  barcode_validated_before_network.1 failTransport "123" (Or.inl (by decide))

-- =========================================================================
-- Claim C5
-- =========================================================================

/-- C5: a raw record with no energy field at all and no non-empty name field
fails `hasValidNutrition`; it is therefore filtered out of the products that
`searchFoods` transforms (every returned item comes from a product that
passes validation), and a direct lookup that finds exactly this record
throws an `INCOMPLETE_DATA` error instead of returning an item. -/
theorem invalid_record_excluded :
    ∀ p : OpenFoodFactsProduct,
      (∀ n, p.nutriments = some n →
        n.energy_kcal_100g = none ∧ n.energy_kcal_serving = none ∧
        n.energy_100g = none ∧ n.energy_serving = none ∧
        n.energy_kcal = none ∧ n.energy = none) →
      strTruthy p.product_name = false →
      strTruthy p.product_name_en = false →
      strTruthy p.product_name_fr = false →
      strTruthy p.product_name_de = false →
      strTruthy p.generic_name = false →
      hasValidNutrition p = false
      ∧ (∀ (data : OpenFoodFactsSearchResponse) (page pageSize : ℕ),
          p ∉ data.products.filter hasValidNutrition
          ∧ ∀ i ∈ (searchFoodsResult data page pageSize).items,
              ∃ q ∈ data.products, hasValidNutrition q = true
                ∧ i = transformProduct q)
      ∧ (∀ (transport : String → TransportOutcome) (barcode code : String),
          8 ≤ (cleanBarcode barcode).length →
          (cleanBarcode barcode).length ≤ 14 →
          transport (productUrl (cleanBarcode barcode)) = .parsed ⟨code, some p, 1⟩ →
          getFoodByBarcode transport barcode = (.error "INCOMPLETE_DATA", true)) := by
  intro p hE hn1 hn2 hn3 hn4 hn5
  have hval : hasValidNutrition p = false := by
    cases hn : p.nutriments with
    | none => simp [hasValidNutrition, hn]
    | some n =>
      obtain ⟨he1, _, he2, _, he3, _⟩ := hE n hn
      simp [hasValidNutrition, hn, he1, he2, he3]
  refine ⟨hval, ?_, ?_⟩
  · intro data page pageSize
    constructor
    · intro hmem
      have := (List.mem_filter.mp hmem).2
      rw [hval] at this
      cases this
    · intro i hi
      simp only [searchFoodsResult, List.mem_map] at hi
      obtain ⟨q, hq, hqi⟩ := hi
      exact ⟨q, (List.mem_filter.mp hq).1, (List.mem_filter.mp hq).2, hqi.symm⟩
  · intro transport barcode code h8 h14 htr
    have hcond : ((cleanBarcode barcode).length < 8
        || 14 < (cleanBarcode barcode).length) = false := by
      simp only [Bool.or_eq_false_iff, decide_eq_false_iff_not, not_lt]
      exact ⟨h8, h14⟩
    simp only [getFoodByBarcode, hcond, Bool.false_eq_true, if_false, htr,
      hval]
    simp

/-- Witness for C5: the record with no fields at all is excluded. -/
theorem invalid_record_excluded_witness :
    hasValidNutrition emptyProduct = false :=
  (invalid_record_excluded emptyProduct (fun n hn => by cases hn)
    rfl rfl rfl rfl rfl).1

-- =========================================================================
-- Claim C7
-- =========================================================================

/-- C7: when calorie resolution falls through to the generic `energy` field,
a value strictly greater than 400 is treated as kJ and converted by dividing
by 4.184 then rounding to the nearest integer, and a value of at most 400 is
taken as kcal directly; in particular energy = 1850 yields 442 kcal and
energy = 95 yields 95 kcal. -/
theorem generic_energy_heuristic :
    (∀ (n : OpenFoodFactsNutriments) (e : ℚ),
        n.energy_kcal_100g = none → n.energy_100g = none →
        n.energy_kcal = none → n.energy = some e →
        getCalories (some n) true
          = if 400 < e then (jsRound (e / kJperKcal) : ℚ) else (jsRound e : ℚ))
    ∧ getCalories (some (nutrGeneric 1850)) true = 442
    ∧ getCalories (some (nutrGeneric 95)) true = 95 := by
  refine ⟨?_, ?_, ?_⟩
  · intro n e h1 h2 h3 h4
    simp [getCalories, h1, h2, h3, h4]
  · simp only [getCalories, nutrGeneric]
    rw [jsRound_eq (x := (1850 : ℚ) / kJperKcal) (n := 442)
      (by norm_num [kJperKcal]) (by norm_num [kJperKcal])]
    norm_num
  · simp only [getCalories, nutrGeneric]
    rw [if_neg (by norm_num : ¬ (400 : ℚ) < 95),
      jsRound_eq (x := (95 : ℚ)) (n := 95) (by norm_num) (by norm_num)]
    norm_num

/-- Witness for C7 at the record whose only energy field is `energy = 1850`. -/
theorem generic_energy_heuristic_witness :
    getCalories (some (nutrGeneric 1850)) true
      = if 400 < (1850 : ℚ) then (jsRound ((1850 : ℚ) / kJperKcal) : ℚ)
        else (jsRound (1850 : ℚ) : ℚ) :=
  generic_energy_heuristic.1 (nutrGeneric 1850) 1850 rfl rfl rfl rfl

-- =========================================================================
-- Claim C10
-- =========================================================================

/-- C10: the validator recognises strictly fewer fields than the normalizer
resolves.  The record whose only energy datum is the generic `energy` field
(value 95) and whose only name field is `product_name_fr` fails
`hasValidNutrition`, even though `getCalories` resolves a positive 95 kcal
and `getProductName` a non-empty name for that same record. -/
theorem validator_stricter_than_normalizer :
    hasValidNutrition productEnergyOnlyFr = false
    ∧ getCalories productEnergyOnlyFr.nutriments true = 95
    ∧ (0 : ℚ) < getCalories productEnergyOnlyFr.nutriments true
    ∧ getProductName productEnergyOnlyFr = "Baguette"
    ∧ ("Baguette" : String) ≠ "" := by
  have hcal : getCalories productEnergyOnlyFr.nutriments true = 95 := by
    simp only [getCalories, productEnergyOnlyFr]
    rw [if_neg (by norm_num : ¬ (400 : ℚ) < 95),
      jsRound_eq (x := (95 : ℚ)) (n := 95) (by norm_num) (by norm_num)]
    norm_num
  refine ⟨?_, hcal, ?_, ?_, ?_⟩
  · simp [hasValidNutrition, productEnergyOnlyFr, strTruthy]
  · rw [hcal]
    norm_num
  · rfl
  · decide

-- =========================================================================
-- Claim C4
-- =========================================================================

lemma calculatePerServing_pos {per100 g : ℚ} (hg : 0 < g) :
    calculatePerServing per100 g = round1 (per100 * g / 100) := by
  unfold calculatePerServing
  rw [if_neg (not_le.mpr hg)]

/-- C4 counterexample: rescaling an item whose baseline is 95 kcal per 100g
to 30 g yields 28.5 kcal — one-decimal rounding — whereas rounding
`95 * 30 / 100` to an integer as the claim states would give 29. -/
theorem rescale_integer_rounding_counterexample :
    (recalculateServing item95 30).calories = 57/2
    ∧ jsRound ((95 : ℚ) * 30 / 100) = 29
    ∧ ((57 : ℚ)/2) ≠ ((29 : ℤ) : ℚ) := by
  refine ⟨?_, ?_, by norm_num⟩
  · simp only [recalculateServing, item95]
    rw [if_neg (by norm_num : ¬ (95 : ℚ) = 0)]
    show calculatePerServing 95 30 = 57/2
    rw [calculatePerServing_pos (by norm_num),
      round1_eq (n := 285) (by norm_num) (by norm_num)]
    norm_num
  · exact jsRound_eq (by norm_num) (by norm_num)

/-- C4 amended: for every positive gram amount, `calculatePerServing` (the
serving derivation used by `transformProduct`) and all four per-serving
values produced by `recalculateServing` equal `perHundred * grams / 100`
rounded to **one decimal place** — calories included; calories are not
rounded to an integer. -/
theorem perServing_rounding_amended :
    (∀ per100 g : ℚ, 0 < g →
        calculatePerServing per100 g = round1 (per100 * g / 100))
    ∧ (∀ (item : FoodItem) (g c : ℚ), 0 < g →
        item.caloriesPer100g = some c → c ≠ 0 →
        (recalculateServing item g).calories = round1 (c * g / 100)
        ∧ (recalculateServing item g).protein
            = round1 (item.proteinPer100g.getD 0 * g / 100)
        ∧ (recalculateServing item g).carbs
            = round1 (item.carbsPer100g.getD 0 * g / 100)
        ∧ (recalculateServing item g).fat
            = round1 (item.fatPer100g.getD 0 * g / 100)) := by
  constructor
  · intro per100 g hg
    exact calculatePerServing_pos hg
  · intro item g c hg hc hc0
    simp only [recalculateServing, hc]
    rw [if_neg hc0]
    exact ⟨calculatePerServing_pos hg, calculatePerServing_pos hg,
      calculatePerServing_pos hg, calculatePerServing_pos hg⟩

/-- Witness for C4's amended theorem at `item95` rescaled to 30 g. -/
theorem perServing_rounding_amended_witness :
    (recalculateServing item95 30).calories = round1 ((95 : ℚ) * 30 / 100) :=
  (perServing_rounding_amended.2 item95 30 95 (by norm_num) rfl
    (by norm_num)).1

-- =========================================================================
-- Claim C8
-- =========================================================================

/-- C8: rescaling twice at the same gram amount equals rescaling once. -/
theorem recalculateServing_idempotent (food : FoodItem) (g : ℚ) :
    recalculateServing (recalculateServing food g) g
      = recalculateServing food g := by
  cases hc : food.caloriesPer100g with
  | none => simp [recalculateServing, hc]
  | some c =>
    by_cases hc0 : c = 0
    · simp [recalculateServing, hc, hc0]
    · simp [recalculateServing, hc, hc0]

-- =========================================================================
-- Claim C9
-- =========================================================================

/-- C9: `recalculateServing` only ever changes the serving label, the
serving quantity and the four per-serving macro values; every other field is
returned unchanged, and with an absent per-100g calorie baseline the item is
returned entirely unchanged (a no-op, not an error). -/
theorem recalculateServing_frame (food : FoodItem) (g : ℚ) :
    (recalculateServing food g).id = food.id
    ∧ (recalculateServing food g).source = food.source
    ∧ (recalculateServing food g).sourceId = food.sourceId
    ∧ (recalculateServing food g).name = food.name
    ∧ (recalculateServing food g).brand = food.brand
    ∧ (recalculateServing food g).fiber = food.fiber
    ∧ (recalculateServing food g).sugar = food.sugar
    ∧ (recalculateServing food g).saturatedFat = food.saturatedFat
    ∧ (recalculateServing food g).sodium = food.sodium
    ∧ (recalculateServing food g).caloriesPer100g = food.caloriesPer100g
    ∧ (recalculateServing food g).proteinPer100g = food.proteinPer100g
    ∧ (recalculateServing food g).carbsPer100g = food.carbsPer100g
    ∧ (recalculateServing food g).fatPer100g = food.fatPer100g
    ∧ (recalculateServing food g).imageUrl = food.imageUrl
    ∧ (recalculateServing food g).thumbnailUrl = food.thumbnailUrl
    ∧ (recalculateServing food g).nutritionGrade = food.nutritionGrade
    ∧ (recalculateServing food g).novaGroup = food.novaGroup
    ∧ (recalculateServing food g).completeness = food.completeness
    ∧ (food.caloriesPer100g = none → recalculateServing food g = food) := by
  cases hc : food.caloriesPer100g with
  | none => simp [recalculateServing, hc]
  | some c =>
    by_cases hc0 : c = 0
    · simp [recalculateServing, hc, hc0]
    · simp [recalculateServing, hc, hc0]

/-- Witness for C9 at a concrete item and gram amount. -/
theorem recalculateServing_frame_witness :
    (recalculateServing item95 30).name = item95.name :=
  (recalculateServing_frame item95 30).2.2.2.1

end FoodTracker
